import Mathlib

/-!
Shallow embedding of the ClickHouse metrics query-builder layer of this
repository: the granularity grammar and time-bucket selection, the
rollup-type to aggregation-expression mapping, the query composer
`createMetricsQuery`, the `MetricsService` wrapper, and the metrics web
route loader.  All definitions are transcribed from the TypeScript source;
theorems settle the specification claims about them.
-/

namespace MetricsSpec

/-- Time units accepted by the granularity grammar, one per letter of the
character class in the regex `^(\d+)([smhd])$`. -/
inductive TimeUnit where
  | s
  | m
  | h
  | d
deriving DecidableEq

/-- The letter of a time unit. -/
def unitChar : TimeUnit → Char
  | .s => 's'
  | .m => 'm'
  | .h => 'h'
  | .d => 'd'

/-- Reads one character of the `[smhd]` class. -/
def charToUnit (c : Char) : Option TimeUnit :=
  if c = 's' then some TimeUnit.s
  else if c = 'm' then some TimeUnit.m
  else if c = 'h' then some TimeUnit.h
  else if c = 'd' then some TimeUnit.d
  else none

/-- Embedding of the JavaScript regex match `^(\d+)([smhd])$` on the list of
characters of the granularity string: the string must be one or more digits
followed by exactly one unit letter.  Returns the digit group and the unit. -/
def matchGranularityChars (cs : List Char) : Option (List Char × TimeUnit) :=
  match cs.reverse with
  | [] => none
  | last :: restRev =>
    match charToUnit last with
    | none => none
    | some u =>
      let digits := restRev.reverse
      if !digits.isEmpty && digits.all Char.isDigit then some (digits, u) else none

/-- The regex match `granularity.match(/^(\d+)([smhd])$/)` on a string. -/
def matchGranularity (g : String) : Option (String × TimeUnit) :=
  (matchGranularityChars g.data).map (fun p => (String.mk p.1, p.2))

/-- The `unitMap` object of `granularityToInterval`. -/
def unitMap : TimeUnit → String
  | .s => "SECOND"
  | .m => "MINUTE"
  | .h => "HOUR"
  | .d => "DAY"

/-- `granularityToInterval` from `metrics.ts`: converts a granularity token to
a ClickHouse interval, throwing on a string that does not match the grammar.
A thrown `Error` is modelled as `Except.error` carrying the message. -/
def granularityToInterval (granularity : String) : Except String String :=
  match matchGranularity granularity with
  | none =>
    .error ("Invalid granularity format: " ++ granularity ++
      ". Expected format like \"1m\", \"5m\", \"1h\", \"1d\"")
  | some (amount, unit) => .ok (amount ++ " " ++ unitMap unit)

/-- `getTimeBucketFunction` from `metrics.ts`: selects the time-bucket SQL
expression for a granularity token.  On a token that does not match the
grammar it does not fail: it returns the minute bucket. -/
def getTimeBucketFunction (granularity : String) : String :=
  match matchGranularity granularity with
  | none => "toStartOfMinute(toDateTime(created_at))"
  | some (_, unit) =>
    match unit with
    | .s => "toStartOfMinute(toDateTime(created_at))"
    | .m => "toStartOfMinute(toDateTime(created_at))"
    | .h => "toStartOfHour(toDateTime(created_at))"
    | .d => "toDate(toDateTime(created_at))"

/-- The rollup-type enum of the `MetricQueryParams` zod schema. -/
inductive RollupType where
  | count
  | sum
  | avg
  | min
  | max
  | distinct
deriving DecidableEq

/-- String form of a rollup type, as interpolated into query names. -/
def RollupType.toStr : RollupType → String
  | .count => "count"
  | .sum => "sum"
  | .avg => "avg"
  | .min => "min"
  | .max => "max"
  | .distinct => "distinct"

/-- `buildAggregationExpression` from `metrics.ts`. -/
def buildAggregationExpression (rollupType : RollupType) (column : String) : String :=
  match rollupType with
  | .count => if column = "*" then "count()" else "count(" ++ column ++ ")"
  | .sum => "sum(" ++ column ++ ")"
  | .avg => "avg(" ++ column ++ ")"
  | .min => "min(" ++ column ++ ")"
  | .max => "max(" ++ column ++ ")"
  | .distinct => "uniq(" ++ column ++ ")"

/-- A JavaScript value of type `string | number`, the type of the zod union
`z.union([z.string(), z.number()])` used for `startTime` and `endTime`. -/
inductive StrOrNum where
  | str (s : String)
  | num (n : Int)
deriving DecidableEq

/-- JavaScript truthiness of a `string | number` value: the empty string and
the number zero are falsy, everything else is truthy. -/
def StrOrNum.truthy : StrOrNum → Bool
  | .str s => s ≠ ""
  | .num n => n ≠ 0

/-- JavaScript truthiness of an optional string: absent and the empty string
are falsy. -/
def optStrTruthy : Option String → Bool
  | some s => s ≠ ""
  | none => false

/-- The optional `filters` object of `MetricQueryParams`. -/
structure Filters where
  task_identifier : Option String
  status : Option String
  queue : Option String
deriving DecidableEq

/-- The optional `rollup` object of `MetricQueryParams`. -/
structure RollupSpec where
  type : RollupType
  column : String
deriving DecidableEq

/-- The `MetricQueryParams` zod schema of `metrics.ts`, as a record: every
field carries exactly the typing constraint of the schema, which imposes no
further validation (in particular no non-emptiness check on any string). -/
structure MetricQueryParams where
  organizationId : String
  projectId : String
  environmentId : String
  startTime : StrOrNum
  endTime : Option StrOrNum
  granularity : String
  filters : Option Filters
  groupBy : Option String
  rollup : Option RollupSpec
deriving DecidableEq

/-- One clause appended to a query builder by its chainable API: a `where`
condition with its parameter bindings, a `groupBy` column, or an `orderBy`
ordering. -/
inductive Clause where
  | whereClause (cond : String) (args : List (String × StrOrNum))
  | groupByClause (column : String)
  | orderByClause (ordering : String)
deriving DecidableEq

/-- The state a query builder accumulates: its name, its base SQL text, and
the clauses appended so far, in order. -/
structure QueryBuilder where
  name : String
  baseQuery : String
  clauses : List Clause
deriving DecidableEq

/-- `getDynamicMetricsQueryBuilder` from `metrics.ts`: base query from the
time bucket of the granularity and the aggregation expression of the rollup. -/
def getDynamicMetricsQueryBuilder (granularity : String) (rollupType : RollupType)
    (column : String) : QueryBuilder :=
  { name := "getDynamicMetrics_" ++ RollupType.toStr rollupType ++ "_" ++ column ++
      "_" ++ granularity
    baseQuery := "\n      SELECT\n        " ++ getTimeBucketFunction granularity ++
      " as timestamp,\n        " ++ buildAggregationExpression rollupType column ++
      " as value\n      FROM trigger_dev.task_runs_v2 FINAL\n    "
    clauses := [] }

/-- `getMetricsQueryBuilder` from `metrics.ts`. -/
def getMetricsQueryBuilder : QueryBuilder :=
  { name := "getMetrics"
    baseQuery := "\n      SELECT\n        " ++ getTimeBucketFunction "1m" ++
      " as timestamp,\n        count() as value\n      FROM trigger_dev.task_runs_v2 FINAL\n    "
    clauses := [] }

/-- `getTaskRunCountMetrics` from `metrics.ts`. -/
def getTaskRunCountMetrics : QueryBuilder :=
  { name := "getTaskRunCountMetrics"
    baseQuery := "\n      SELECT\n        " ++ getTimeBucketFunction "1m" ++
      " as timestamp,\n        count() as value,\n        task_identifier as label\n      FROM trigger_dev.task_runs_v2 FINAL\n    "
    clauses := [] }

/-- `getTaskRunDurationMetrics` from `metrics.ts`. -/
def getTaskRunDurationMetrics : QueryBuilder :=
  { name := "getTaskRunDurationMetrics"
    baseQuery := "\n      SELECT\n        " ++ getTimeBucketFunction "1m" ++
      " as timestamp,\n        avg(usage_duration_ms) as value,\n        task_identifier as label\n      FROM trigger_dev.task_runs_v2 FINAL\n      WHERE usage_duration_ms > 0\n    "
    clauses := [] }

/-- `getTaskRunCostMetrics` from `metrics.ts`. -/
def getTaskRunCostMetrics : QueryBuilder :=
  { name := "getTaskRunCostMetrics"
    baseQuery := "\n      SELECT\n        " ++ getTimeBucketFunction "1m" ++
      " as timestamp,\n        sum(cost_in_cents) as value,\n        task_identifier as label\n      FROM trigger_dev.task_runs_v2 FINAL\n      WHERE cost_in_cents > 0\n    "
    clauses := [] }

/-- `getTaskRunStatusMetrics` from `metrics.ts`. -/
def getTaskRunStatusMetrics : QueryBuilder :=
  { name := "getTaskRunStatusMetrics"
    baseQuery := "\n      SELECT\n        " ++ getTimeBucketFunction "1m" ++
      " as timestamp,\n        count() as value,\n        status as label\n      FROM trigger_dev.task_runs_v2 FINAL\n    "
    clauses := [] }

/-- The aggregation enum of `getCustomMetrics`, which has no `distinct`. -/
inductive CustomAgg where
  | count
  | sum
  | avg
  | min
  | max
deriving DecidableEq

/-- String form of a custom aggregation, as interpolated into SQL text. -/
def CustomAgg.toStr : CustomAgg → String
  | .count => "count"
  | .sum => "sum"
  | .avg => "avg"
  | .min => "min"
  | .max => "max"

/-- The `baseQuery` template literal of `getCustomMetrics`. -/
def customMetricsBaseQuery (aggregation : CustomAgg) (column : String) : String :=
  "\n    SELECT\n      " ++ getTimeBucketFunction "1m" ++ " as timestamp,\n      " ++
    CustomAgg.toStr aggregation ++ "(" ++ column ++
    ") as value,\n      task_identifier as label\n    FROM trigger_dev.task_runs_v2 FINAL\n  "

/-- `getCustomMetrics` from `metrics.ts`: appends a `WHERE column > 0` filter
to the base query text for the `avg`, `sum`, `min` and `max` aggregations and
appends nothing for `count`. -/
def getCustomMetrics (metric : String) (aggregation : CustomAgg) (column : String) :
    QueryBuilder :=
  let whereText :=
    if aggregation = CustomAgg.avg ∨ aggregation = CustomAgg.sum ∨
        aggregation = CustomAgg.min ∨ aggregation = CustomAgg.max then
      "WHERE " ++ column ++ " > 0"
    else ""
  { name := "getCustomMetrics_" ++ metric ++ "_" ++ CustomAgg.toStr aggregation
    baseQuery := customMetricsBaseQuery aggregation column ++ whereText
    clauses := [] }

/-- The `metricType` argument of `createMetricsQuery`. -/
inductive MetricType where
  | count
  | duration
  | cost
  | status
  | custom
deriving DecidableEq

/-- The `customMetric` argument of `createMetricsQuery`. -/
structure CustomMetric where
  aggregation : CustomAgg
  column : String
deriving DecidableEq

/-- The builder-selection phase of `createMetricsQuery`: the dynamic builder
when a rollup is given, otherwise a predefined builder by metric type,
otherwise a thrown error. -/
def chooseBuilder (params : MetricQueryParams) (metricType : Option MetricType)
    (customMetric : Option CustomMetric) : Except String QueryBuilder :=
  match params.rollup with
  | some r => .ok (getDynamicMetricsQueryBuilder params.granularity r.type r.column)
  | none =>
    match metricType with
    | some .count => .ok getTaskRunCountMetrics
    | some .duration => .ok getTaskRunDurationMetrics
    | some .cost => .ok getTaskRunCostMetrics
    | some .status => .ok getTaskRunStatusMetrics
    | some .custom =>
      match customMetric with
      | none => .error "customMetric is required for custom metric type"
      | some cm => .ok (getCustomMetrics "custom" cm.aggregation cm.column)
    | none => .error "Either metricType or rollup must be specified"

/-- The five unconditional `where` calls of `createMetricsQuery`: tenant
scope, soft-delete filter and start-time filter, in source order. -/
def standardFilterClauses (params : MetricQueryParams) : List Clause :=
  [ Clause.whereClause "organization_id = \x7borganizationId:String\x7d"
      [("organizationId", StrOrNum.str params.organizationId)]
  , Clause.whereClause "project_id = \x7bprojectId:String\x7d"
      [("projectId", StrOrNum.str params.projectId)]
  , Clause.whereClause "environment_id = \x7benvironmentId:String\x7d"
      [("environmentId", StrOrNum.str params.environmentId)]
  , Clause.whereClause "_is_deleted = 0" []
  , Clause.whereClause "created_at >= toUnixTimestamp(\x7bstartTime:DateTime64\x7d)"
      [("startTime", params.startTime)] ]

/-- The `if (params.endTime)` block of `createMetricsQuery`: the end-time
filter is appended only when `endTime` is truthy. -/
def endTimeClauses (params : MetricQueryParams) : List Clause :=
  match params.endTime with
  | some e =>
    if e.truthy then
      [Clause.whereClause "created_at <= toUnixTimestamp(\x7bendTime:DateTime64\x7d)"
        [("endTime", e)]]
    else []
  | none => []

/-- The `if (params.filters?.task_identifier)` block of `createMetricsQuery`. -/
def taskIdentifierFilterClauses (params : MetricQueryParams) : List Clause :=
  match params.filters with
  | some f =>
    match f.task_identifier with
    | some t =>
      if t ≠ "" then
        [Clause.whereClause "task_identifier = \x7btaskIdentifier:String\x7d"
          [("taskIdentifier", StrOrNum.str t)]]
      else []
    | none => []
  | none => []

/-- The `if (params.filters?.status)` block of `createMetricsQuery`. -/
def statusFilterClauses (params : MetricQueryParams) : List Clause :=
  match params.filters with
  | some f =>
    match f.status with
    | some st =>
      if st ≠ "" then
        [Clause.whereClause "status = \x7bstatus:String\x7d" [("status", StrOrNum.str st)]]
      else []
    | none => []
  | none => []

/-- The `if (params.filters?.queue)` block of `createMetricsQuery`. -/
def queueFilterClauses (params : MetricQueryParams) : List Clause :=
  match params.filters with
  | some f =>
    match f.queue with
    | some q =>
      if q ≠ "" then
        [Clause.whereClause "queue = \x7bqueue:String\x7d" [("queue", StrOrNum.str q)]]
      else []
    | none => []
  | none => []

/-- The grouping block of `createMetricsQuery`: an explicit `groupBy` is
appended only when it is truthy and differs from `task_identifier`; the
default `task_identifier` grouping is appended only when `groupBy` is falsy
(absent or empty) and no rollup is given. -/
def groupByClauses (params : MetricQueryParams) : List Clause :=
  match params.groupBy with
  | some g =>
    if g ≠ "" then
      (if g ≠ "task_identifier" then [Clause.groupByClause g] else [])
    else (if params.rollup.isNone then [Clause.groupByClause "task_identifier"] else [])
  | none => if params.rollup.isNone then [Clause.groupByClause "task_identifier"] else []

/-- All clauses `createMetricsQuery` appends to the selected builder, in the
order of the source: standard filters, end-time filter, task-identifier,
status and queue filters, grouping, then the fixed ascending time ordering. -/
def appendedClauses (params : MetricQueryParams) : List Clause :=
  standardFilterClauses params ++ endTimeClauses params ++
    taskIdentifierFilterClauses params ++ statusFilterClauses params ++
    queueFilterClauses params ++ groupByClauses params ++
    [Clause.orderByClause "timestamp ASC"]

/-- `createMetricsQuery` from `metrics.ts`: selects a builder and appends the
filter, grouping and ordering clauses to it.  Thrown errors are modelled as
`Except.error` carrying the message. -/
def createMetricsQuery (params : MetricQueryParams) (metricType : Option MetricType)
    (customMetric : Option CustomMetric) : Except String QueryBuilder :=
  match chooseBuilder params metricType customMetric with
  | .error e => .error e
  | .ok qb => .ok { qb with clauses := qb.clauses ++ appendedClauses params }

/-- The API-side `MetricQueryParams` zod schema of `api/metric.ts`: the same
fields as the ClickHouse-side schema without the tenant identifiers. -/
structure APIMetricQueryParams where
  startTime : StrOrNum
  endTime : Option StrOrNum
  granularity : String
  filters : Option Filters
  groupBy : Option String
  rollup : Option RollupSpec
deriving DecidableEq

/-- `convertAPIParamsToClickHouseParams` from `metrics.server.ts`. -/
def convertAPIParamsToClickHouseParams (apiParams : APIMetricQueryParams)
    (organizationId projectId environmentId : String) : MetricQueryParams :=
  { organizationId := organizationId
    projectId := projectId
    environmentId := environmentId
    startTime := apiParams.startTime
    endTime := apiParams.endTime
    granularity := apiParams.granularity
    filters := apiParams.filters
    groupBy := apiParams.groupBy
    rollup := apiParams.rollup }

namespace MetricsService

/-- `MetricsService.getDynamicMetrics` from `metrics.server.ts`, up to query
construction: it throws when the params carry no rollup, and otherwise builds
the query through `createMetricsQuery` with no metric type.  Execution
against the database is outside the model; the result is the constructed
query builder. -/
def getDynamicMetrics (params : APIMetricQueryParams)
    (organizationId projectId environmentId : String) : Except String QueryBuilder :=
  match params.rollup with
  | none => .error "rollup parameter is required for dynamic metrics"
  | some _ =>
    createMetricsQuery
      (convertAPIParamsToClickHouseParams params organizationId projectId environmentId)
      none none

end MetricsService

/-- An HTTP response as the web route produces it: a status and a body. -/
structure HttpResponse where
  statusCode : Nat
  body : String
deriving DecidableEq

/-- A JavaScript value thrown during the try block of the loader: a
`Response` object, an `Error` instance carrying a message, or any other
value (such as a thrown string). -/
inductive Thrown where
  | response (r : HttpResponse)
  | jsError (message : String)
  | otherValue (v : String)
deriving DecidableEq

/-- The catch block of the metrics route loader: a thrown `Response` is
returned as-is; a thrown `Error` becomes a 500 response carrying its
message; any other thrown value becomes a 500 response with the fixed body
`Unknown error`. -/
def catchBlock : Thrown → HttpResponse
  | .response r => r
  | .jsError message => { statusCode := 500, body := message }
  | .otherValue _ => { statusCode := 500, body := "Unknown error" }

/-- The environment row selected by the database lookup of the loader. -/
structure EnvInfo where
  organizationId : String
  projectId : String
deriving DecidableEq

/-- The body returned by `MetricPresenter.call`. -/
structure MetricsPayload where
  metrics : List String
deriving DecidableEq

/-- `MetricPresenter.call` from `MetricPresenter.server.ts`: a stub returning
an empty metrics list regardless of its arguments. -/
def MetricPresenter.call (_organizationId _projectId _environmentId : String)
    : MetricsPayload :=
  { metrics := [] }

/-- What the loader produces: either the JSON success payload or a
`Response` (returned or thrown). -/
inductive LoaderResult where
  | success (payload : MetricsPayload)
  | response (r : HttpResponse)
deriving DecidableEq

/-- The try block of the metrics route loader.  Its external steps are
inputs: `dbResult` is the outcome of the environment lookup, which can throw
an arbitrary value, and `parseResult` is the outcome of parsing the request
search params against the `MetricsQuery` schema.  A missing environment
throws a `Response` with the default status 200; a failed parse throws a 400
`Response`; the presenter call (whose result the `tryCatch` wrapper would
turn into a thrown 500 `Response` on error) is the pure stub and succeeds. -/
def loaderTry (environmentId : String) (dbResult : Except Thrown (Option EnvInfo))
    (parseResult : Except String Unit) : Except Thrown MetricsPayload :=
  match dbResult with
  | .error t => .error t
  | .ok none =>
    .error (.response
      ⟨200, "This environment does not exist or you do not have permission to access it"⟩)
  | .ok (some env) =>
    match parseResult with
    | .error e => .error (.response { statusCode := 400, body := e })
    | .ok _ =>
      .ok (MetricPresenter.call env.organizationId env.projectId environmentId)

/-- The metrics route loader: the try block followed by the catch block; a
successful body is returned as JSON. -/
def loader (environmentId : String) (dbResult : Except Thrown (Option EnvInfo))
    (parseResult : Except String Unit) : LoaderResult :=
  match loaderTry environmentId dbResult parseResult with
  | .ok payload => .success payload
  | .error t => .response (catchBlock t)

/-- Tests whether a clause is a group-by clause. -/
def Clause.isGroupBy : Clause → Bool
  | .groupByClause _ => true
  | _ => false

/-- Tests whether a clause is the default `task_identifier` group-by clause. -/
def Clause.isDefaultGroupBy : Clause → Bool
  | .groupByClause c => c = "task_identifier"
  | _ => false

/-- Params whose granularity does not match the grammar, with a rollup. -/
def invalidGranularityParams : MetricQueryParams :=
  { organizationId := "org_123", projectId := "proj_456", environmentId := "env_789",
    startTime := StrOrNum.num 1700000000, endTime := none, granularity := "abc",
    filters := none, groupBy := none, rollup := some ⟨RollupType.count, "*"⟩ }

/-- Params whose `filters.task_identifier` is present but the empty string. -/
def emptyTaskIdFilterParams : MetricQueryParams :=
  { organizationId := "org_123", projectId := "proj_456", environmentId := "env_789",
    startTime := StrOrNum.num 1700000000, endTime := none, granularity := "1h",
    filters := some ⟨some "", none, none⟩, groupBy := none,
    rollup := some ⟨RollupType.count, "*"⟩ }

/-- Params with every optional field set and truthy. -/
def fullFilterParams : MetricQueryParams :=
  { organizationId := "org_123", projectId := "proj_456", environmentId := "env_789",
    startTime := StrOrNum.num 1700000000, endTime := some (StrOrNum.num 1700003600),
    granularity := "1h",
    filters := some ⟨some "my-task", some "COMPLETED_SUCCESSFULLY", some "task/my-task"⟩,
    groupBy := some "status", rollup := some ⟨RollupType.avg, "usage_duration_ms"⟩ }

/-- Params whose `groupBy` is present but the empty string, with no rollup. -/
def emptyGroupByParams : MetricQueryParams :=
  { organizationId := "org_123", projectId := "proj_456", environmentId := "env_789",
    startTime := StrOrNum.num 1700000000, endTime := none, granularity := "1h",
    filters := none, groupBy := some "", rollup := none }

/-- The params of the end-to-end example: an `avg` rollup over
`usage_duration_ms` at granularity `15m`, with no group-by. -/
def dynamicAvgParams : MetricQueryParams :=
  { organizationId := "org_123", projectId := "proj_456", environmentId := "env_789",
    startTime := StrOrNum.num 1700000000, endTime := some (StrOrNum.num 1700003600),
    granularity := "15m", filters := none, groupBy := none,
    rollup := some ⟨RollupType.avg, "usage_duration_ms"⟩ }

/-- Params with neither a rollup nor a group-by. -/
def defaultGroupingParams : MetricQueryParams :=
  { organizationId := "org_123", projectId := "proj_456", environmentId := "env_789",
    startTime := StrOrNum.num 1700000000, endTime := none, granularity := "1h",
    filters := none, groupBy := none, rollup := none }

/-- Params whose rollup column is the empty string. -/
def emptyColumnRollupParams : MetricQueryParams :=
  { organizationId := "org_123", projectId := "proj_456", environmentId := "env_789",
    startTime := StrOrNum.num 1700000000, endTime := none, granularity := "1h",
    filters := none, groupBy := none, rollup := some ⟨RollupType.sum, ""⟩ }

/-- Params with no rollup, for the missing-rollup error paths. -/
def noRollupParams : MetricQueryParams :=
  { organizationId := "org_123", projectId := "proj_456", environmentId := "env_789",
    startTime := StrOrNum.num 1700000000, endTime := none, granularity := "1h",
    filters := none, groupBy := none, rollup := none }

/-- API params with no rollup. -/
def noRollupAPIParams : APIMetricQueryParams :=
  { startTime := StrOrNum.num 1700000000, endTime := none, granularity := "1h",
    filters := none, groupBy := none, rollup := none }

/-- Params whose `groupBy` is explicitly `task_identifier`, with a rollup. -/
def explicitTaskIdRollupParams : MetricQueryParams :=
  { organizationId := "org_123", projectId := "proj_456", environmentId := "env_789",
    startTime := StrOrNum.num 1700000000, endTime := none, granularity := "1h",
    filters := none, groupBy := some "task_identifier",
    rollup := some ⟨RollupType.count, "*"⟩ }

/-- Params whose `groupBy` is explicitly `task_identifier`, with no rollup. -/
def explicitTaskIdCountParams : MetricQueryParams :=
  { organizationId := "org_123", projectId := "proj_456", environmentId := "env_789",
    startTime := StrOrNum.num 1700000000, endTime := none, granularity := "1h",
    filters := none, groupBy := some "task_identifier", rollup := none }

/-- The bucket selection as the claim states it: a function of the unit
letter alone, seconds and minutes to the minute bucket, hours to the hour
bucket, days to the day bucket. -/
def claimedBucketOfUnit : TimeUnit → String
  | .s => "toStartOfMinute(toDateTime(created_at))"
  | .m => "toStartOfMinute(toDateTime(created_at))"
  | .h => "toStartOfHour(toDateTime(created_at))"
  | .d => "toDate(toDateTime(created_at))"

/-! Helper lemmas shared by the claim proofs. -/

/-- Every builder `chooseBuilder` can select starts with an empty clause list. -/
theorem chooseBuilder_clauses (params : MetricQueryParams) (mt : Option MetricType)
    (cm : Option CustomMetric) (qb : QueryBuilder)
    (h : chooseBuilder params mt cm = .ok qb) : qb.clauses = [] := by
  unfold chooseBuilder at h
  cases hrr : params.rollup with
  | some r =>
    rw [hrr] at h
    cases h
    rfl
  | none =>
    rw [hrr] at h
    cases mt with
    | none => simp at h
    | some t =>
      cases t with
      | count => cases h; rfl
      | duration => cases h; rfl
      | cost => cases h; rfl
      | status => cases h; rfl
      | custom =>
        cases cm with
        | none => simp at h
        | some c => cases h; rfl

/-- A predicate false on every `where` clause counts nothing in the standard
filter block. -/
theorem countP_standardFilterClauses (params : MetricQueryParams) (p : Clause → Bool)
    (hp : ∀ c args, p (Clause.whereClause c args) = false) :
    (standardFilterClauses params).countP p = 0 := by
  simp [standardFilterClauses, List.countP_cons, hp]

/-- A predicate false on every `where` clause counts nothing in the end-time
block. -/
theorem countP_endTimeClauses (params : MetricQueryParams) (p : Clause → Bool)
    (hp : ∀ c args, p (Clause.whereClause c args) = false) :
    (endTimeClauses params).countP p = 0 := by
  unfold endTimeClauses
  cases params.endTime with
  | none => rfl
  | some e =>
    cases he : e.truthy <;> simp [he, List.countP_cons, hp]

/-- A predicate false on every `where` clause counts nothing in the
task-identifier filter block. -/
theorem countP_taskIdentifierFilterClauses (params : MetricQueryParams) (p : Clause → Bool)
    (hp : ∀ c args, p (Clause.whereClause c args) = false) :
    (taskIdentifierFilterClauses params).countP p = 0 := by
  unfold taskIdentifierFilterClauses
  cases params.filters with
  | none => rfl
  | some f =>
    cases hti : f.task_identifier with
    | none => simp [hti]
    | some t =>
      by_cases ht : t = "" <;> simp [hti, ht, List.countP_cons, hp]

/-- A predicate false on every `where` clause counts nothing in the status
filter block. -/
theorem countP_statusFilterClauses (params : MetricQueryParams) (p : Clause → Bool)
    (hp : ∀ c args, p (Clause.whereClause c args) = false) :
    (statusFilterClauses params).countP p = 0 := by
  unfold statusFilterClauses
  cases params.filters with
  | none => rfl
  | some f =>
    cases hs : f.status with
    | none => simp [hs]
    | some st =>
      by_cases hst : st = "" <;> simp [hs, hst, List.countP_cons, hp]

/-- A predicate false on every `where` clause counts nothing in the queue
filter block. -/
theorem countP_queueFilterClauses (params : MetricQueryParams) (p : Clause → Bool)
    (hp : ∀ c args, p (Clause.whereClause c args) = false) :
    (queueFilterClauses params).countP p = 0 := by
  unfold queueFilterClauses
  cases params.filters with
  | none => rfl
  | some f =>
    cases hq0 : f.queue with
    | none => simp [hq0]
    | some q =>
      by_cases hq : q = "" <;> simp [hq0, hq, List.countP_cons, hp]

/-- Counting clauses of the whole appended list with a predicate that ignores
`where` and `orderBy` clauses reduces to counting in the grouping block. -/
theorem countP_appendedClauses (params : MetricQueryParams) (p : Clause → Bool)
    (hp : ∀ c args, p (Clause.whereClause c args) = false)
    (hpo : ∀ o, p (Clause.orderByClause o) = false) :
    (appendedClauses params).countP p = (groupByClauses params).countP p := by
  simp [appendedClauses, List.countP_append,
    countP_standardFilterClauses params p hp,
    countP_endTimeClauses params p hp,
    countP_taskIdentifierFilterClauses params p hp,
    countP_statusFilterClauses params p hp,
    countP_queueFilterClauses params p hp,
    List.countP_cons, hpo]

/-- The default `task_identifier` grouping occurs in the grouping block
exactly when the params carry no rollup and no truthy groupBy. -/
theorem countP_groupByClauses_default (params : MetricQueryParams) :
    (groupByClauses params).countP Clause.isDefaultGroupBy =
      if params.rollup = none ∧ optStrTruthy params.groupBy = false then 1 else 0 := by
  unfold groupByClauses
  cases hg : params.groupBy with
  | none =>
    cases hr : params.rollup with
    | none => simp [optStrTruthy, List.countP_cons, Clause.isDefaultGroupBy]
    | some r => simp [optStrTruthy]
  | some g =>
    by_cases hge : g = ""
    · subst hge
      cases hr : params.rollup with
      | none => simp [optStrTruthy, List.countP_cons, Clause.isDefaultGroupBy]
      | some r => simp [optStrTruthy]
    · by_cases hgt : g = "task_identifier"
      · subst hgt
        simp [optStrTruthy]
      · simp [optStrTruthy, hge, hgt, List.countP_cons, Clause.isDefaultGroupBy]

/-! The claims. -/

/-- C1, counterexample.  The claim says a granularity string not matching
the grammar makes query construction fail with an InvalidGranularity error.
It does not: `"abc"` does not match the grammar, yet `createMetricsQuery`
(and with it the getDynamic path, which builds through the same
`getDynamicMetricsQueryBuilder`) produces a query, silently falling back to
the minute bucket. -/
theorem claim1_counterexample :
    matchGranularity "abc" = none ∧
    (createMetricsQuery invalidGranularityParams none none).isOk = true ∧
    getTimeBucketFunction "abc" = "toStartOfMinute(toDateTime(created_at))" :=
  ⟨rfl, rfl, rfl⟩

/-- C1, amended.  For every granularity string that does not match the
grammar, query construction via getDynamic and createQuery succeeds, with
the time bucket silently defaulting to the minute bucket; only the helper
`granularityToInterval`, which those construction paths never call, fails
with the InvalidGranularity error. -/
theorem claim1_amended (g : String) (h : matchGranularity g = none) :
    getTimeBucketFunction g = "toStartOfMinute(toDateTime(created_at))" ∧
    granularityToInterval g = .error ("Invalid granularity format: " ++ g ++
      ". Expected format like \"1m\", \"5m\", \"1h\", \"1d\"") ∧
    (∀ params mt cm, params.granularity = g → params.rollup.isSome = true →
      (createMetricsQuery params mt cm).isOk = true) := by
  refine ⟨?_, ?_, ?_⟩
  · unfold getTimeBucketFunction
    rw [h]
  · unfold granularityToInterval
    rw [h]
  · intro params mt cm _hg hr
    unfold createMetricsQuery chooseBuilder
    cases hrr : params.rollup with
    | none => rw [hrr] at hr; simp at hr
    | some r =>
      simp only [hrr]
      rfl

/-- C1, witness for the amended claim at the concrete input `"abc"`. -/
theorem claim1_witness :
    getTimeBucketFunction "abc" = "toStartOfMinute(toDateTime(created_at))" ∧
    (createMetricsQuery invalidGranularityParams none none).isOk = true := by
  obtain ⟨h1, _h2, h3⟩ := claim1_amended "abc" rfl
  exact ⟨h1, h3 invalidGranularityParams none none rfl rfl⟩

/-- C2, confirmed.  For every granularity string matching the grammar, the
selected time-bucket expression depends only on the unit letter: seconds and
minutes map to the minute bucket, hours to the hour bucket, days to the day
bucket; the numeric amount has no effect. -/
theorem claim2_bucket_unit_only (g amount : String) (u : TimeUnit)
    (h : matchGranularity g = some (amount, u)) :
    getTimeBucketFunction g = claimedBucketOfUnit u := by
  unfold getTimeBucketFunction
  rw [h]
  cases u <;> rfl

/-- C2, witness at the concrete inputs `"15m"`, `"30s"`, `"6h"` and `"2d"`:
amounts differ, the bucket depends only on the unit. -/
theorem claim2_witness :
    getTimeBucketFunction "15m" = "toStartOfMinute(toDateTime(created_at))" ∧
    getTimeBucketFunction "30s" = "toStartOfMinute(toDateTime(created_at))" ∧
    getTimeBucketFunction "6h" = "toStartOfHour(toDateTime(created_at))" ∧
    getTimeBucketFunction "2d" = "toDate(toDateTime(created_at))" :=
  ⟨claim2_bucket_unit_only "15m" "15" TimeUnit.m rfl,
   claim2_bucket_unit_only "30s" "30" TimeUnit.s rfl,
   claim2_bucket_unit_only "6h" "6" TimeUnit.h rfl,
   claim2_bucket_unit_only "2d" "2" TimeUnit.d rfl⟩

/-- C3, confirmed.  `buildAggregationExpression` maps each rollup type to its
SQL fragment: count over the wildcard to the row count, count over a named
column to a column count, sum, avg, min and max to the matching aggregate,
and distinct to the approximate-distinct-count `uniq`. -/
theorem claim3_aggregation_mapping (c : String) :
    buildAggregationExpression .count "*" = "count()" ∧
    (c ≠ "*" → buildAggregationExpression .count c = "count(" ++ c ++ ")") ∧
    buildAggregationExpression .sum c = "sum(" ++ c ++ ")" ∧
    buildAggregationExpression .avg c = "avg(" ++ c ++ ")" ∧
    buildAggregationExpression .min c = "min(" ++ c ++ ")" ∧
    buildAggregationExpression .max c = "max(" ++ c ++ ")" ∧
    buildAggregationExpression .distinct c = "uniq(" ++ c ++ ")" := by
  refine ⟨rfl, ?_, rfl, rfl, rfl, rfl, rfl⟩
  intro hc
  simp [buildAggregationExpression, hc]

/-- C3, witness at the concrete column `"x"`. -/
theorem claim3_witness :
    buildAggregationExpression RollupType.count "x" = "count(x)" ∧
    buildAggregationExpression RollupType.sum "x" = "sum(x)" ∧
    buildAggregationExpression RollupType.distinct "x" = "uniq(x)" :=
  ⟨(claim3_aggregation_mapping "x").2.1 (by decide),
   (claim3_aggregation_mapping "x").2.2.1,
   (claim3_aggregation_mapping "x").2.2.2.2.2.2⟩

/-- C4, counterexample.  The claim says the task_identifier filter is
appended whenever it is present.  It is not: in `emptyTaskIdFilterParams`
the filter value is present (the empty string), yet the composed query
contains no task_identifier filter clause, because JavaScript truthiness
treats the empty string as absent. -/
theorem claim4_counterexample :
    (emptyTaskIdFilterParams.filters.bind Filters.task_identifier).isSome = true ∧
    (createMetricsQuery emptyTaskIdFilterParams none none).toOption.map
        (fun b => b.clauses.countP
          (fun cl => cl matches Clause.whereClause "task_identifier = \x7btaskIdentifier:String\x7d" _)) =
      some 0 :=
  ⟨rfl, rfl⟩

/-- C4, amended.  `createMetricsQuery` appends clauses in a fixed
deterministic order: the organization, project, environment, soft-delete and
start-time filters, then the end-time filter if `endTime` is truthy (present
and neither the empty string nor zero), then the task_identifier, status and
queue filters (each only if present and non-empty, in that order), then the
grouping clauses, then the ascending timestamp ordering; identical params
always produce the identical clause sequence. -/
theorem claim4_amended (params : MetricQueryParams) (mt : Option MetricType)
    (cm : Option CustomMetric) (h : (createMetricsQuery params mt cm).isOk = true) :
    (createMetricsQuery params mt cm).toOption.map QueryBuilder.clauses =
      some (standardFilterClauses params ++ endTimeClauses params ++
        taskIdentifierFilterClauses params ++ statusFilterClauses params ++
        queueFilterClauses params ++ groupByClauses params ++
        [Clause.orderByClause "timestamp ASC"]) := by
  cases hcb : chooseBuilder params mt cm with
  | error e =>
    unfold createMetricsQuery at h
    rw [hcb] at h
    simp [Except.isOk, Except.toBool] at h
  | ok qb =>
    have hnil : qb.clauses = [] := chooseBuilder_clauses params mt cm qb hcb
    unfold createMetricsQuery
    rw [hcb]
    dsimp only
    rw [hnil]
    rfl

/-- C4, witness at params with every optional field set and truthy. -/
theorem claim4_witness :
    (createMetricsQuery fullFilterParams none none).toOption.map QueryBuilder.clauses =
      some (standardFilterClauses fullFilterParams ++ endTimeClauses fullFilterParams ++
        taskIdentifierFilterClauses fullFilterParams ++ statusFilterClauses fullFilterParams ++
        queueFilterClauses fullFilterParams ++ groupByClauses fullFilterParams ++
        [Clause.orderByClause "timestamp ASC"]) :=
  claim4_amended fullFilterParams none none rfl

/-- C5, counterexample.  The claim says the default task_identifier grouping
is added exactly when the params contain neither a rollup nor an explicit
groupBy.  In `emptyGroupByParams` the groupBy field is explicitly present
(the empty string) and there is no rollup, yet the default grouping is still
added, because the empty string is falsy. -/
theorem claim5_counterexample :
    emptyGroupByParams.groupBy.isSome = true ∧
    emptyGroupByParams.rollup = none ∧
    (createMetricsQuery emptyGroupByParams (some MetricType.count) none).toOption.map
        (fun b => b.clauses.countP Clause.isDefaultGroupBy) = some 1 :=
  ⟨rfl, rfl, rfl⟩

/-- C5, amended.  The default task_identifier grouping is added exactly when
the params contain neither a rollup nor a truthy (non-empty) groupBy; and
for the end-to-end example params with an `avg` rollup over
`usage_duration_ms`, granularity `15m` and no groupBy, the composed query
has no group-by clause at all and ends with the ascending timestamp
ordering. -/
theorem claim5_amended :
    (∀ params mt cm, (createMetricsQuery params mt cm).isOk = true →
      (createMetricsQuery params mt cm).toOption.map
          (fun b => b.clauses.countP Clause.isDefaultGroupBy) =
        some (if params.rollup = none ∧ optStrTruthy params.groupBy = false then 1 else 0)) ∧
    (createMetricsQuery dynamicAvgParams none none).toOption.map
        (fun b => (b.clauses.countP Clause.isGroupBy, b.clauses.getLast?)) =
      some (0, some (Clause.orderByClause "timestamp ASC")) := by
  constructor
  · intro params mt cm h
    cases hcb : chooseBuilder params mt cm with
    | error e =>
      unfold createMetricsQuery at h
      rw [hcb] at h
      simp [Except.isOk, Except.toBool] at h
    | ok qb =>
      have hnil : qb.clauses = [] := chooseBuilder_clauses params mt cm qb hcb
      have hcnt := countP_appendedClauses params Clause.isDefaultGroupBy
        (fun _ _ => rfl) (fun _ => rfl)
      unfold createMetricsQuery
      rw [hcb]
      dsimp only
      rw [hnil]
      simp only [Except.toOption, Option.map, List.nil_append, hcnt]
      rw [countP_groupByClauses_default params]
  · rfl

/-- C5, witness for the amended claim: with neither rollup nor groupBy the
default grouping is added once. -/
theorem claim5_witness :
    (createMetricsQuery defaultGroupingParams (some MetricType.count) none).toOption.map
        (fun b => b.clauses.countP Clause.isDefaultGroupBy) = some 1 :=
  claim5_amended.1 defaultGroupingParams (some MetricType.count) none rfl

/-- C6, counterexample.  The claim says construction rejects a rollup whose
column is the empty string.  It does not: the schema only requires the
column to be a string, and `createMetricsQuery` happily builds a query for
an empty column, producing the aggregation expression `sum()`. -/
theorem claim6_counterexample :
    emptyColumnRollupParams.rollup = some ⟨RollupType.sum, ""⟩ ∧
    (createMetricsQuery emptyColumnRollupParams none none).isOk = true ∧
    buildAggregationExpression RollupType.sum "" = "sum()" :=
  ⟨rfl, rfl, rfl⟩

/-- C6, amended.  A rollup whose column is the empty string passes
validation and construction: `createMetricsQuery` succeeds on it, and the
aggregation expression it embeds simply has an empty argument list. -/
theorem claim6_amended (params : MetricQueryParams) (mt : Option MetricType)
    (cm : Option CustomMetric) (r : RollupSpec)
    (hr : params.rollup = some r) (hc : r.column = "") :
    (createMetricsQuery params mt cm).isOk = true ∧
    buildAggregationExpression r.type r.column =
      (match r.type with
       | .count => "count()"
       | .sum => "sum()"
       | .avg => "avg()"
       | .min => "min()"
       | .max => "max()"
       | .distinct => "uniq()") := by
  constructor
  · unfold createMetricsQuery chooseBuilder
    simp only [hr]
    rfl
  · rw [hc]
    cases r.type <;> rfl

/-- C6, witness at the concrete empty-column params. -/
theorem claim6_witness :
    (createMetricsQuery emptyColumnRollupParams none none).isOk = true ∧
    buildAggregationExpression RollupType.sum "" = "sum()" := by
  have h := claim6_amended emptyColumnRollupParams none none ⟨RollupType.sum, ""⟩ rfl rfl
  exact ⟨h.1, h.2⟩

/-- C7, confirmed.  When a rollup is required but missing, construction
throws immediately: `createMetricsQuery` with neither a metric type nor a
rollup fails with the missing-specification error, and
`MetricsService.getDynamicMetrics` with params lacking a rollup fails with
the missing-rollup error before any query is built. -/
theorem claim7_missing_rollup :
    (∀ params cm, params.rollup = none →
      createMetricsQuery params none cm =
        .error "Either metricType or rollup must be specified") ∧
    (∀ apiParams organizationId projectId environmentId,
      APIMetricQueryParams.rollup apiParams = none →
      MetricsService.getDynamicMetrics apiParams organizationId projectId environmentId =
        .error "rollup parameter is required for dynamic metrics") := by
  constructor
  · intro params cm h
    unfold createMetricsQuery chooseBuilder
    simp only [h]
  · intro apiParams organizationId projectId environmentId h
    unfold MetricsService.getDynamicMetrics
    simp only [h]

/-- C7, witness at concrete no-rollup params. -/
theorem claim7_witness :
    createMetricsQuery noRollupParams none none =
      .error "Either metricType or rollup must be specified" ∧
    MetricsService.getDynamicMetrics noRollupAPIParams "org_123" "proj_456" "env_789" =
      .error "rollup parameter is required for dynamic metrics" :=
  ⟨claim7_missing_rollup.1 noRollupParams none rfl,
   claim7_missing_rollup.2 noRollupAPIParams "org_123" "proj_456" "env_789" rfl⟩

/-- C8, counterexample.  The claim says any uncaught error during handling
yields an HTTP 500 carrying the error message.  A thrown value that is not
an `Error` instance — here the string `boom` — yields a 500 whose body is
the fixed text `Unknown error`, not the thrown value. -/
theorem claim8_counterexample :
    loader "env_789" (.error (.otherValue "boom")) (.ok ()) =
      .response ⟨500, "Unknown error"⟩ ∧
    ("Unknown error" : String) ≠ "boom" :=
  ⟨rfl, by decide⟩

/-- C8, amended.  An uncaught `Error` yields an HTTP 500 carrying the
message of the error; an uncaught thrown value that is not an `Error` and not a
`Response` yields an HTTP 500 with the fixed body `Unknown error`; and
request search parameters failing the MetricsQuery schema yield an HTTP 400
carrying the validation error. -/
theorem claim8_amended :
    (∀ environmentId message parseResult,
      loader environmentId (.error (.jsError message)) parseResult =
        .response ⟨500, message⟩) ∧
    (∀ environmentId v parseResult,
      loader environmentId (.error (.otherValue v)) parseResult =
        .response ⟨500, "Unknown error"⟩) ∧
    (∀ environmentId env e,
      loader environmentId (.ok (some env)) (.error e) = .response ⟨400, e⟩) :=
  ⟨fun _ _ _ => rfl, fun _ _ _ => rfl, fun _ _ _ => rfl⟩

/-- C9, confirmed.  When the groupBy of the params is explicitly the string
`task_identifier`, the composed query contains no group-by clause at all:
the explicit group-by is silently dropped, with or without a rollup. -/
theorem claim9_explicit_groupBy_dropped (params : MetricQueryParams)
    (mt : Option MetricType) (cm : Option CustomMetric)
    (hg : params.groupBy = some "task_identifier")
    (h : (createMetricsQuery params mt cm).isOk = true) :
    (createMetricsQuery params mt cm).toOption.map
        (fun b => b.clauses.countP Clause.isGroupBy) = some 0 := by
  cases hcb : chooseBuilder params mt cm with
  | error e =>
    unfold createMetricsQuery at h
    rw [hcb] at h
    simp [Except.isOk, Except.toBool] at h
  | ok qb =>
    have hnil : qb.clauses = [] := chooseBuilder_clauses params mt cm qb hcb
    have hcnt := countP_appendedClauses params Clause.isGroupBy
      (fun _ _ => rfl) (fun _ => rfl)
    have hgb : (groupByClauses params).countP Clause.isGroupBy = 0 := by
      unfold groupByClauses
      rw [hg]
      simp
    unfold createMetricsQuery
    rw [hcb]
    dsimp only
    rw [hnil]
    simp only [Except.toOption, Option.map, List.nil_append, hcnt, hgb]

/-- C9, witness at explicit `task_identifier` groupBy, once with a rollup
and once without. -/
theorem claim9_witness :
    (createMetricsQuery explicitTaskIdRollupParams none none).toOption.map
        (fun b => b.clauses.countP Clause.isGroupBy) = some 0 ∧
    (createMetricsQuery explicitTaskIdCountParams (some MetricType.count) none).toOption.map
        (fun b => b.clauses.countP Clause.isGroupBy) = some 0 :=
  ⟨claim9_explicit_groupBy_dropped explicitTaskIdRollupParams none none rfl rfl,
   claim9_explicit_groupBy_dropped explicitTaskIdCountParams (some MetricType.count) none
     rfl rfl⟩

/-- C10, confirmed.  `getCustomMetrics` appends the filter
`WHERE column > 0` to its base query exactly when the aggregation is sum,
avg, min or max; for count nothing is appended, so the base query stands
unfiltered. -/
theorem claim10_custom_where_filter (metric : String) (aggregation : CustomAgg)
    (column : String) :
    ((aggregation = CustomAgg.sum ∨ aggregation = CustomAgg.avg ∨
        aggregation = CustomAgg.min ∨ aggregation = CustomAgg.max) →
      (getCustomMetrics metric aggregation column).baseQuery =
        customMetricsBaseQuery aggregation column ++ ("WHERE " ++ column ++ " > 0")) ∧
    (aggregation = CustomAgg.count →
      (getCustomMetrics metric aggregation column).baseQuery =
        customMetricsBaseQuery aggregation column) := by
  constructor
  · intro h
    rcases h with h | h | h | h <;> subst h <;> rfl
  · intro h
    subst h
    show customMetricsBaseQuery CustomAgg.count column ++ "" =
      customMetricsBaseQuery CustomAgg.count column
    exact String.append_empty _

/-- C10, witness at the aggregations `sum` and `count` over the column
`cost_in_cents`. -/
theorem claim10_witness :
    (getCustomMetrics "cost" CustomAgg.sum "cost_in_cents").baseQuery =
      customMetricsBaseQuery CustomAgg.sum "cost_in_cents" ++ "WHERE cost_in_cents > 0" ∧
    (getCustomMetrics "cost" CustomAgg.count "cost_in_cents").baseQuery =
      customMetricsBaseQuery CustomAgg.count "cost_in_cents" :=
  ⟨(claim10_custom_where_filter "cost" CustomAgg.sum "cost_in_cents").1 (Or.inl rfl),
   (claim10_custom_where_filter "cost" CustomAgg.count "cost_in_cents").2 rfl⟩

end MetricsSpec
